import Mathlib

/-!
Verification of the token-bucket rate limiter and the scalability monitor of
the code-challenge repository.

The TypeScript sources are shallowly embedded: JavaScript numbers are exact
rationals (`ℚ`), `Date.now()` timestamps are rational milliseconds passed in
explicitly, the `Map`-based bucket registry is a function from storage keys to
optional bucket states, and `Math.floor` / `Math.ceil` / `Math.round` are
`Int.floor` / `Int.ceil` / `round` (JavaScript `Math.round` rounds half up,
which is exactly Mathlib's `round`).
-/

namespace RateLimiterModel

/-- Configuration of a token bucket (source interface `TokenBucketConfig` in
`rateLimiter.ts`): maximum capacity, tokens added per second, and the storage
key prefix (source field `keyPrefix`, default `"rate_limit"`). -/
structure TokenBucketConfig where
  capacity : ℚ
  refillRate : ℚ
  keyPrefixVal : String
  deriving DecidableEq

/-- Mutable per-key bucket state (source interface `TokenBucketState`). -/
structure TokenBucketState where
  tokens : ℚ
  lastRefill : ℚ
  deriving DecidableEq

/-- Result of a `consume` call (source interface `RateLimitResult`).
`retryAfterSeconds` is optional in the source and only set on rejection. -/
structure RateLimitResult where
  allowed : Bool
  remainingTokens : ℚ
  retryAfterSeconds : Option ℤ
  resetTime : ℚ
  deriving DecidableEq

/-- Result of a `getStatus` call: the source returns
`Omit<RateLimitResult, 'allowed'>`. -/
structure BucketStatus where
  remainingTokens : ℚ
  retryAfterSeconds : Option ℤ
  resetTime : ℚ
  deriving DecidableEq

/-- The bucket registry (source field `storage : Map<string, TokenBucketState>`). -/
abbrev Storage : Type := String → Option TokenBucketState

/-- Registry of a freshly constructed `TokenBucket` (`new Map()`). -/
def Storage.empty : Storage := fun _ => none

/-- `storage.set(k, b)` on the registry. -/
def Storage.setKey (st : Storage) (k : String) (b : TokenBucketState) : Storage :=
  fun s => if s = k then some b else st s

/-- Storage key derivation: `` `${this.config.keyPrefix}:${key}` ``. -/
def bucketKey (cfg : TokenBucketConfig) (key : String) : String :=
  cfg.keyPrefixVal ++ ":" ++ key

/-- Bucket created for a key not present in the registry: full capacity,
`lastRefill = now`. -/
def freshBucket (cfg : TokenBucketConfig) (now : ℚ) : TokenBucketState :=
  { tokens := cfg.capacity, lastRefill := now }

/-- The refill step at the top of `TokenBucket.consume` (lines 64-74 of the
source): `tokensToAdd = Math.floor(timeDelta * refillRate)` with
`timeDelta = (now - lastRefill) / 1000`; only when `tokensToAdd > 0` are the
tokens topped up (capped at capacity) and `lastRefill` advanced to `now`. -/
def refillTokens (cfg : TokenBucketConfig) (b : TokenBucketState) (now : ℚ) :
    TokenBucketState :=
  let timeDelta := (now - b.lastRefill) / 1000
  let tokensToAdd : ℤ := ⌊timeDelta * cfg.refillRate⌋
  if 0 < tokensToAdd then
    { tokens := min cfg.capacity (b.tokens + (tokensToAdd : ℚ)), lastRefill := now }
  else
    b

/-- Body of `TokenBucket.consume` acting on a single bucket: refill, then
`allowed = tokens >= 1`; on success one token is consumed, on rejection
`retryAfterSeconds = Math.ceil((1 - tokens) / refillRate)`; in both cases
`resetTime = now + (capacity - tokens) / refillRate * 1000` is computed from
the post-consumption token count. -/
def consumeBucket (cfg : TokenBucketConfig) (b0 : TokenBucketState) (now : ℚ) :
    RateLimitResult × TokenBucketState :=
  let b := refillTokens cfg b0 now
  if 1 ≤ b.tokens then
    let b1 : TokenBucketState := { tokens := b.tokens - 1, lastRefill := b.lastRefill }
    ({ allowed := true, remainingTokens := b1.tokens, retryAfterSeconds := none,
       resetTime := now + (cfg.capacity - b1.tokens) / cfg.refillRate * 1000 }, b1)
  else
    ({ allowed := false, remainingTokens := b.tokens,
       retryAfterSeconds := some ⌈(1 - b.tokens) / cfg.refillRate⌉,
       resetTime := now + (cfg.capacity - b.tokens) / cfg.refillRate * 1000 }, b)

/-- `TokenBucket.consume(key)`: look the bucket up (initializing a full one if
absent), run the per-bucket step, and write the bucket back with
`storage.set`. -/
def consume (cfg : TokenBucketConfig) (st : Storage) (now : ℚ) (key : String) :
    RateLimitResult × Storage :=
  let bk := bucketKey cfg key
  let b0 := (st bk).getD (freshBucket cfg now)
  let rb := consumeBucket cfg b0 now
  (rb.1, st.setKey bk rb.2)

/-- `TokenBucket.getStatus(key)`: computes the current token count
`min(capacity, tokens + Math.floor(timeDelta * refillRate))` without writing
anything back; the source method contains no `storage.set` call, so the
registry component of the result is the input registry. -/
def getStatus (cfg : TokenBucketConfig) (st : Storage) (now : ℚ) (key : String) :
    BucketStatus × Storage :=
  let bk := bucketKey cfg key
  let b := (st bk).getD (freshBucket cfg now)
  let timeDelta := (now - b.lastRefill) / 1000
  let tokensToAdd : ℤ := ⌊timeDelta * cfg.refillRate⌋
  let currentTokens := min cfg.capacity (b.tokens + (tokensToAdd : ℚ))
  ({ remainingTokens := currentTokens,
     retryAfterSeconds :=
       if currentTokens < 1 then some ⌈(1 - currentTokens) / cfg.refillRate⌉ else none,
     resetTime := now + (cfg.capacity - currentTokens) / cfg.refillRate * 1000 }, st)

/-- Outcome of the admission middleware: either `next()` is invoked and the
request proceeds downstream, or a 429 response is produced. -/
inductive AdmissionOutcome where
  | proceed
  | rejected429
  deriving DecidableEq

/-- The `try`/`catch` body of the middleware returned by
`createRateLimitMiddleware`: derive the key (the user-supplied key generator
may throw, modelled by `Except`), consult the bucket (`consumeFn`), and on a
rejected result answer 429; every thrown error is caught and the request is
allowed through (`next()` — fail open), leaving the registry untouched. -/
def rateLimitMiddlewareGen {Req : Type} (keyGen : Req → Except String String)
    (consumeFn : String → Except String (RateLimitResult × Storage))
    (st : Storage) (req : Req) : AdmissionOutcome × Storage :=
  match (do
      let key ← keyGen req
      consumeFn key : Except String (RateLimitResult × Storage)) with
  | Except.error _ => (AdmissionOutcome.proceed, st)
  | Except.ok rs =>
    if rs.1.allowed then (AdmissionOutcome.proceed, rs.2)
    else (AdmissionOutcome.rejected429, rs.2)

/-- The middleware with the repository's own bucket: the source `consume`
contains no `throw`, so it is total and wrapped in `Except.ok`. -/
def rateLimitMiddleware {Req : Type} (cfg : TokenBucketConfig)
    (keyGen : Req → Except String String) (st : Storage) (now : ℚ) (req : Req) :
    AdmissionOutcome × Storage :=
  rateLimitMiddlewareGen keyGen (fun key => Except.ok (consume cfg st now key)) st req

/-- `createConfiguredRateLimiter`: after merging environment defaults and
overrides, throws `'Rate limit capacity and refill rate must be positive
numbers'` when `capacity <= 0 || refillRate <= 0`, otherwise builds the
middleware from the validated configuration. -/
def createConfiguredRateLimiter (capacity refillRate : ℚ) (p : String) :
    Except String TokenBucketConfig :=
  if capacity ≤ 0 ∨ refillRate ≤ 0 then
    Except.error "Rate limit capacity and refill rate must be positive numbers"
  else
    Except.ok { capacity := capacity, refillRate := refillRate, keyPrefixVal := p }

/-- Registry after `n` consecutive `consume key` calls at a fixed time `now`
on a freshly constructed bucket. -/
def iterConsume (cfg : TokenBucketConfig) (now : ℚ) (key : String) : ℕ → Storage
  | 0 => Storage.empty
  | n + 1 => (consume cfg (iterConsume cfg now key n) now key).2

/-- Result of the `(n+1)`-th consecutive `consume key` call at fixed time
`now` on a freshly constructed bucket (`n` calls have already happened). -/
def nthConsume (cfg : TokenBucketConfig) (now : ℚ) (key : String) (n : ℕ) :
    RateLimitResult :=
  (consume cfg (iterConsume cfg now key n) now key).1

/-- Run a sequence of operations against the registry.  Each operation is a
`consume` for some key at some time; advancing time between calls is expressed
by the per-operation timestamps. -/
def runOps (cfg : TokenBucketConfig) (st : Storage) : List (ℚ × String) → Storage
  | [] => st
  | op :: rest => runOps cfg (consume cfg st op.1 op.2).2 rest

/-- Registry invariant: every stored bucket has `0 ≤ tokens ≤ capacity`. -/
def BucketInv (cfg : TokenBucketConfig) (st : Storage) : Prop :=
  ∀ k b, st k = some b → 0 ≤ b.tokens ∧ b.tokens ≤ cfg.capacity

/-- A `capacity = 10`, `refillRate = 1` token/second configuration, as in the
refill-correctness scenario of the specification. -/
def cfg10 : TokenBucketConfig :=
  { capacity := 10, refillRate := 1, keyPrefixVal := "rate_limit" }

/-- Registry of `cfg10` after its bucket for `"client"` has been exhausted by
10 consecutive `consume` calls at time 0. -/
def exhausted10 : Storage := iterConsume cfg10 0 "client" 10

/-- Registry holding a single bucket with 5 tokens last refilled at time 0. -/
def stC6 : Storage :=
  Storage.empty.setKey (bucketKey cfg10 "client") { tokens := 5, lastRefill := 0 }

end RateLimiterModel

namespace ScalabilityModel

/-- One entry of `ScalabilityMonitor.requestMetrics`
(`{ timestamp, responseTime, status }`). -/
structure RequestRecord where
  timestamp : ℚ
  responseTime : ℚ
  status : ℕ
  deriving DecidableEq

/-- `ScalabilityMonitor.recordRequest` acting on the rolling request buffer:
push the new record, then, if the buffer holds more than 10,000 entries, keep
only `slice(-5000)` — the most recent 5,000 records.  (The `clientId` /
active-connection bookkeeping of the source method does not touch the
buffer.) -/
def recordRequest (buf : List RequestRecord) (r : RequestRecord) :
    List RequestRecord :=
  let buf1 := buf ++ [r]
  if 10000 < buf1.length then buf1.drop (buf1.length - 5000) else buf1

/-- `responseTime` block of `PerformanceMetrics`. -/
structure ResponseTimeMetrics where
  avg : ℚ
  p95 : ℚ
  p99 : ℚ
  deriving DecidableEq

/-- `throughput` block of `PerformanceMetrics`. -/
structure ThroughputMetrics where
  requestsPerSecond : ℚ
  requestsPerMinute : ℚ
  deriving DecidableEq

/-- `errors` block of `PerformanceMetrics`. -/
structure ErrorMetrics where
  rate : ℚ
  count : ℕ
  deriving DecidableEq

/-- Return type of `getPerformanceMetrics`. -/
structure PerformanceMetrics where
  responseTime : ResponseTimeMetrics
  throughput : ThroughputMetrics
  errors : ErrorMetrics
  deriving DecidableEq

/-- `Math.round(q * 100) / 100`, the two-decimal rounding used throughout the
monitor. -/
def round2 (q : ℚ) : ℚ := ((round (q * 100) : ℤ) : ℚ) / 100

/-- The all-zero metrics structure returned for an empty window. -/
def zeroPerformanceMetrics : PerformanceMetrics :=
  { responseTime := { avg := 0, p95 := 0, p99 := 0 },
    throughput := { requestsPerSecond := 0, requestsPerMinute := 0 },
    errors := { rate := 0, count := 0 } }

/-- `ScalabilityMonitor.getPerformanceMetrics`: restrict the buffer to the
trailing one-minute window; on an empty window return the all-zero structure;
otherwise sort response times ascending, average them, pick the
`Math.floor(length * 0.95)` / `0.99` percentile entries (defaulting to 0 when
the index falls outside the list, as `|| 0` does), and compute throughput and
error rate, all rounded to two decimals. -/
def getPerformanceMetrics (buf : List RequestRecord) (now : ℚ) :
    PerformanceMetrics :=
  let oneMinuteAgo := now - 60 * 1000
  let recent := buf.filter (fun r => oneMinuteAgo < r.timestamp)
  if recent.length = 0 then
    zeroPerformanceMetrics
  else
    let responseTimes := List.insertionSort (· ≤ ·) (recent.map (fun r => r.responseTime))
    let avg := responseTimes.sum / (responseTimes.length : ℚ)
    let p95Index := (⌊(responseTimes.length : ℚ) * (95 / 100)⌋).toNat
    let p99Index := (⌊(responseTimes.length : ℚ) * (99 / 100)⌋).toNat
    let requestsPerMinute : ℚ := (recent.length : ℚ)
    let requestsPerSecond := requestsPerMinute / 60
    let errorRequests := recent.filter (fun r => 400 ≤ r.status)
    let errorRate := ((errorRequests.length : ℚ) / (recent.length : ℚ)) * 100
    { responseTime := { avg := round2 avg,
                        p95 := round2 (responseTimes.getD p95Index 0),
                        p99 := round2 (responseTimes.getD p99Index 0) },
      throughput := { requestsPerSecond := round2 requestsPerSecond,
                      requestsPerMinute := requestsPerMinute },
      errors := { rate := round2 errorRate, count := errorRequests.length } }

/-- The five metric values `getScalabilityAssessment` reads from the collected
metrics: `database.databaseSize` (bytes), `performance.responseTime.p95`,
`performance.throughput.requestsPerSecond`, `performance.errors.rate` and
`system.memory.usage`. -/
structure AssessmentInput where
  databaseSize : ℚ
  p95ResponseTime : ℚ
  requestsPerSecond : ℚ
  errorRate : ℚ
  memoryUsage : ℚ
  deriving DecidableEq

/-- Traffic-light status of the assessment. -/
inductive HealthStatus where
  | green
  | yellow
  | red
  deriving DecidableEq

/-- Return value of `getScalabilityAssessment`. -/
structure Assessment where
  status : HealthStatus
  score : ℚ
  recommendations : List String
  alerts : List String
  deriving DecidableEq

/-- `ScalabilityMonitor.getScalabilityAssessment` as a function of the metric
values it reads: start from 100, walk the five `if / else if` ladders
(database size in GB, p95 response time, throughput, error rate, memory
usage), derive the status from the resulting score, and return
`Math.max(0, score)`. -/
def getScalabilityAssessment (m : AssessmentInput) : Assessment :=
  let dbSizeGB := m.databaseSize / (1024 * 1024 * 1024)
  let score1 : ℚ := if 5 < dbSizeGB then 100 - 30 else if 1 < dbSizeGB then 100 - 15 else 100
  let score2 := if 500 < m.p95ResponseTime then score1 - 25
    else if 200 < m.p95ResponseTime then score1 - 10 else score1
  let score3 := if 500 < m.requestsPerSecond then score2 - 20
    else if 100 < m.requestsPerSecond then score2 - 5 else score2
  let score4 := if 5 < m.errorRate then score3 - 25
    else if 1 < m.errorRate then score3 - 10 else score3
  let score5 := if 90 < m.memoryUsage then score4 - 20
    else if 80 < m.memoryUsage then score4 - 5 else score4
  let status := if 80 ≤ score5 then HealthStatus.green
    else if 60 ≤ score5 then HealthStatus.yellow else HealthStatus.red
  { status := status,
    score := max 0 score5,
    recommendations :=
      (if 5 < dbSizeGB then ["Migrate to PostgreSQL immediately"]
       else if 1 < dbSizeGB then ["Plan PostgreSQL migration within 2-3 months"] else []) ++
      (if 500 < m.p95ResponseTime then ["Optimize database queries and add caching"]
       else if 200 < m.p95ResponseTime then ["Consider query optimization and indexing"] else []) ++
      (if 500 < m.requestsPerSecond then ["Implement read replicas or migrate to PostgreSQL"]
       else if 100 < m.requestsPerSecond then ["Monitor request patterns and consider caching"] else []) ++
      (if 5 < m.errorRate then ["Investigate error causes and add monitoring"]
       else if 1 < m.errorRate then ["Monitor error patterns"] else []) ++
      (if 90 < m.memoryUsage then ["Increase server memory or optimize application"]
       else if 80 < m.memoryUsage then ["Monitor memory trends"] else []),
    alerts :=
      (if 5 < dbSizeGB then ["Database size exceeds 5GB - urgent migration needed"]
       else if 1 < dbSizeGB then ["Database size exceeds 1GB - plan migration"] else []) ++
      (if 500 < m.p95ResponseTime then ["95th percentile response time > 500ms"] else []) ++
      (if 500 < m.requestsPerSecond then ["High request rate detected - SQLite limits approaching"] else []) ++
      (if 5 < m.errorRate then ["High error rate detected"] else []) ++
      (if 90 < m.memoryUsage then ["High memory usage - scale vertically"] else []) }

/-- Deduction of one metric category as the claim words it, with every
applicable rule firing non-exclusively: exceeding the lower threshold deducts
`dLo` and exceeding the higher threshold additionally deducts `dHi`.  This
definition follows the specification text, not the code, and exists to be
compared against `getScalabilityAssessment`. -/
def nonExclusiveScore (m : AssessmentInput) : ℚ :=
  let dbSizeGB := m.databaseSize / (1024 * 1024 * 1024)
  let d :=
    (if 1 < dbSizeGB then (15 : ℚ) else 0) + (if 5 < dbSizeGB then 30 else 0) +
    (if 200 < m.p95ResponseTime then 10 else 0) + (if 500 < m.p95ResponseTime then 25 else 0) +
    (if 100 < m.requestsPerSecond then 5 else 0) + (if 500 < m.requestsPerSecond then 20 else 0) +
    (if 1 < m.errorRate then 10 else 0) + (if 5 < m.errorRate then 25 else 0) +
    (if 80 < m.memoryUsage then 5 else 0) + (if 90 < m.memoryUsage then 20 else 0)
  max 0 (min 100 (100 - d))

/-- Tiered deduction actually implemented by the `if / else if` ladders: the
higher tier alone fires when its threshold is exceeded, otherwise the lower
tier, otherwise nothing. -/
def tierDeduction (x lo hi dLo dHi : ℚ) : ℚ :=
  if hi < x then dHi else if lo < x then dLo else 0

/-- Pre-clamp score of the assessment, characterized through the tiered
deductions. -/
def rawScore (m : AssessmentInput) : ℚ :=
  100 - tierDeduction (m.databaseSize / (1024 * 1024 * 1024)) 1 5 15 30
      - tierDeduction m.p95ResponseTime 200 500 10 25
      - tierDeduction m.requestsPerSecond 100 500 5 20
      - tierDeduction m.errorRate 1 5 10 25
      - tierDeduction m.memoryUsage 80 90 5 20

/-- Metric values with a 6 GB database and every other metric in the healthy
range. -/
def metricsDb6GB : AssessmentInput :=
  { databaseSize := 6 * 1024 * 1024 * 1024, p95ResponseTime := 50,
    requestsPerSecond := 1, errorRate := 0, memoryUsage := 50 }

/-- A request record with benign values, used as a concrete buffer entry. -/
def rec0 : RequestRecord := { timestamp := 0, responseTime := 0, status := 200 }

end ScalabilityModel

namespace RateLimiterModel

/-- Claim C9: `getStatus(key)` never modifies any stored bucket state: the
registry returned alongside the status is the input registry (so every stored
`tokens` / `lastRefill` is unchanged and no entry is created, even for a
previously-unseen key), and a second immediately successive `getStatus` call
at the same time returns the same `remainingTokens`. -/
theorem getStatus_pure (cfg : TokenBucketConfig) (st : Storage) (now : ℚ)
    (key : String) :
    (getStatus cfg st now key).2 = st ∧
    (∀ k, (getStatus cfg st now key).2 k = st k) ∧
    (getStatus cfg ((getStatus cfg st now key).2) now key).1.remainingTokens
      = (getStatus cfg st now key).1.remainingTokens :=
  ⟨rfl, fun _ => rfl, rfl⟩

/-- Claim C10: constructing the configured rate limiter fails with the
configuration error exactly when `capacity <= 0` or `refillRate <= 0`, and
succeeds exactly when both are positive. -/
theorem createConfigured_ok_iff (capacity refillRate : ℚ) (p : String) :
    ((createConfiguredRateLimiter capacity refillRate p).isOk = true ↔
        0 < capacity ∧ 0 < refillRate) ∧
    ((∃ e, createConfiguredRateLimiter capacity refillRate p = Except.error e) ↔
        capacity ≤ 0 ∨ refillRate ≤ 0) := by
  unfold createConfiguredRateLimiter
  split_ifs with h
  · refine ⟨⟨fun hfalse => ?_, fun hpos => ?_⟩, by simpa using h⟩
    · simp [Except.isOk, Except.toBool] at hfalse
    · rcases h with h | h
      · exact absurd h (not_le.mpr hpos.1)
      · exact absurd h (not_le.mpr hpos.2)
  · push_neg at h
    refine ⟨⟨fun _ => h, fun _ => by simp [Except.isOk, Except.toBool]⟩, ?_⟩
    constructor
    · rintro ⟨e, he⟩
      simp at he
    · intro hle
      rcases hle with hle | hle
      · exact absurd hle (not_le.mpr h.1)
      · exact absurd hle (not_le.mpr h.2)

/-- Witness for claim C10 at the repository default configuration
(`capacity = 100`, `refillRate = 1.67`). -/
theorem createConfigured_ok_iff_witness :
    (createConfiguredRateLimiter 100 (167 / 100) "api_rate_limit").isOk = true :=
  ((createConfigured_ok_iff 100 (167 / 100) "api_rate_limit").1).mpr
    ⟨by norm_num, by norm_num⟩

/-- Claim C4: every error thrown inside the middleware body — by the
user-supplied key generator or while consulting the bucket — is caught; the
request proceeds downstream (`next()` is invoked) with the registry untouched
and no 429 is produced. -/
theorem middleware_fails_open {Req : Type} (keyGen : Req → Except String String)
    (consumeFn : String → Except String (RateLimitResult × Storage))
    (st : Storage) (req : Req) :
    (∀ e, keyGen req = Except.error e →
        rateLimitMiddlewareGen keyGen consumeFn st req = (AdmissionOutcome.proceed, st) ∧
        (rateLimitMiddlewareGen keyGen consumeFn st req).1 ≠ AdmissionOutcome.rejected429) ∧
    (∀ key e, keyGen req = Except.ok key → consumeFn key = Except.error e →
        rateLimitMiddlewareGen keyGen consumeFn st req = (AdmissionOutcome.proceed, st) ∧
        (rateLimitMiddlewareGen keyGen consumeFn st req).1 ≠ AdmissionOutcome.rejected429) := by
  constructor
  · intro e he
    simp [rateLimitMiddlewareGen, he, Bind.bind, Except.bind]
  · intro key e hk hc
    simp [rateLimitMiddlewareGen, hk, hc, Bind.bind, Except.bind]

/-- Witness for claim C4: a key-derivation function that always throws still
results in the request proceeding. -/
theorem middleware_fails_open_witness :
    rateLimitMiddlewareGen (fun _ : Unit => Except.error "key derivation failed")
        (fun key => Except.ok (consume cfg10 Storage.empty 0 key)) Storage.empty ()
      = (AdmissionOutcome.proceed, Storage.empty) :=
  ((middleware_fails_open (fun _ : Unit => Except.error "key derivation failed")
      (fun key => Except.ok (consume cfg10 Storage.empty 0 key))
      Storage.empty ()).1 "key derivation failed" rfl).1

/-- Claim C6 (counterexample): with `capacity = 10`, `refillRate = 1`
token/second, a bucket holding 5 tokens last refilled at time 0 and a
`consume` call half a second later (`floor(0.5 * 1) = 0` whole tokens
accrue), the stored bucket keeps `lastRefill = 0`: the timestamp is *not*
advanced to `now = 500` as the claim asserts. -/
theorem consume_advances_lastRefill_counterexample :
    (consume cfg10 stC6 500 "client").2 (bucketKey cfg10 "client")
      = some { tokens := 4, lastRefill := 0 } ∧ (0 : ℚ) ≠ 500 := by
  constructor
  · norm_num [consume, consumeBucket, refillTokens, stC6, cfg10, bucketKey,
      Storage.setKey, Storage.empty, freshBucket]
  · norm_num

/-- Claim C6 (amended): a `consume(key)` call stores the bucket produced by
the per-bucket step, and that step advances `lastRefillTimestamp` to `now`
exactly when `floor(elapsed_seconds * refillRate) > 0`; when zero whole
tokens accrue the timestamp is left unchanged, so fractional refill progress
keeps accumulating (it is discarded only at a refill that adds at least one
whole token). -/
theorem consume_lastRefill_advances_iff_refill (cfg : TokenBucketConfig)
    (st : Storage) (now : ℚ) (key : String) :
    (consume cfg st now key).2 (bucketKey cfg key)
      = some (consumeBucket cfg ((st (bucketKey cfg key)).getD (freshBucket cfg now)) now).2 ∧
    ∀ b : TokenBucketState,
      (consumeBucket cfg b now).2.lastRefill
        = if 0 < ⌊(now - b.lastRefill) / 1000 * cfg.refillRate⌋ then now else b.lastRefill := by
  constructor
  · simp [consume, Storage.setKey]
  · intro b
    simp only [consumeBucket, refillTokens]
    split_ifs <;> rfl

end RateLimiterModel

namespace ScalabilityModel

/-- Claim C7: when the trailing one-minute window holds no request records,
`getPerformanceMetrics` returns the all-zero structure (no division is ever
performed on the empty branch). -/
theorem perfMetrics_empty_window (buf : List RequestRecord) (now : ℚ)
    (h : buf.filter (fun r => now - 60 * 1000 < r.timestamp) = []) :
    getPerformanceMetrics buf now = zeroPerformanceMetrics := by
  simp only [getPerformanceMetrics]
  rw [h]
  simp

/-- Witness for claim C7 on the empty record buffer. -/
theorem perfMetrics_empty_window_witness :
    getPerformanceMetrics [] 0 = zeroPerformanceMetrics :=
  perfMetrics_empty_window [] 0 rfl

/-- Claim C8: after every `recordRequest` the rolling buffer holds at most
10,000 entries, and whenever the append pushes it beyond the 10,000-entry cap
the buffer is compacted to exactly the most recent 5,000 records, a suffix
(hence in original temporal order) of the appended buffer. -/
theorem recordRequest_bounded (buf : List RequestRecord) (r : RequestRecord) :
    (recordRequest buf r).length ≤ 10000 ∧
    (10000 < (buf ++ [r]).length →
      (recordRequest buf r).length = 5000 ∧ recordRequest buf r <:+ buf ++ [r]) := by
  simp only [recordRequest]
  split_ifs with h
  · refine ⟨?_, fun _ => ⟨?_, ?_⟩⟩
    · rw [List.length_drop]
      omega
    · rw [List.length_drop]
      rw [List.length_append] at h ⊢
      simp only [List.length_cons, List.length_nil] at h ⊢
      omega
    · exact List.drop_suffix _ _
  · exact ⟨by omega, fun hc => absurd hc h⟩

/-- Witness for claim C8: appending to a buffer already holding 10,000
records compacts to the most recent 5,000. -/
theorem recordRequest_bounded_witness :
    (recordRequest (List.replicate 10000 rec0) rec0).length = 5000 ∧
    recordRequest (List.replicate 10000 rec0) rec0 <:+ List.replicate 10000 rec0 ++ [rec0] :=
  (recordRequest_bounded (List.replicate 10000 rec0) rec0).2
    (by rw [List.length_append, List.length_replicate]; norm_num)

end ScalabilityModel

namespace RateLimiterModel

/-- Helper: with a fixed call time, after `k ≤ capacity` consecutive
`consume key` calls on a fresh registry, the entry for `key` is absent exactly
when `k = 0` and otherwise holds `capacity - k` tokens, last refilled at the
call time (the refill inside each call adds `floor(0) = 0` tokens). -/
theorem iterConsume_lookup (cfg : TokenBucketConfig) (c : ℕ)
    (hcap : cfg.capacity = (c : ℚ)) (key : String) (now : ℚ) :
    ∀ k : ℕ, k ≤ c →
      iterConsume cfg now key k (bucketKey cfg key)
        = if k = 0 then none
          else some { tokens := (c : ℚ) - (k : ℚ), lastRefill := now } := by
  intro k
  induction k with
  | zero =>
    intro _
    simp [iterConsume, Storage.empty]
  | succ n ih =>
    intro hk
    have hn : n ≤ c := Nat.le_of_succ_le hk
    have hb0 : (iterConsume cfg now key n (bucketKey cfg key)).getD (freshBucket cfg now)
        = { tokens := (c : ℚ) - (n : ℚ), lastRefill := now } := by
      rw [ih hn]
      by_cases h0 : n = 0
      · subst h0
        simp [freshBucket, hcap]
      · simp [h0]
    have h1 : (1 : ℚ) ≤ (c : ℚ) - (n : ℚ) := by
      have hcast : ((n : ℚ) + 1) ≤ (c : ℚ) := by exact_mod_cast hk
      linarith
    simp only [iterConsume, consume]
    rw [hb0]
    simp only [consumeBucket, refillTokens, sub_self, zero_div, zero_mul, Int.floor_zero,
      lt_self_iff_false, if_false]
    rw [if_pos h1]
    simp only [Nat.succ_ne_zero, if_false, Storage.setKey]
    simp [Storage.setKey]
    ring

/-- Helper: the bucket value read (with fresh-bucket default) after `k ≤ c`
consecutive `consume key` calls at a fixed time holds `c - k` tokens. -/
theorem iterConsume_read (cfg : TokenBucketConfig) (c : ℕ)
    (hcap : cfg.capacity = (c : ℚ)) (key : String) (now : ℚ) (k : ℕ) (hk : k ≤ c) :
    (iterConsume cfg now key k (bucketKey cfg key)).getD (freshBucket cfg now)
      = { tokens := (c : ℚ) - (k : ℚ), lastRefill := now } := by
  rw [iterConsume_lookup cfg c hcap key now k hk]
  by_cases h0 : k = 0
  · subst h0
    simp [freshBucket, hcap]
  · simp [h0]

/-- Claim C1: on a freshly constructed bucket with positive integer capacity
`c`, with zero elapsed time between calls, each of the first `c` consecutive
`consume(key)` calls is allowed and the `(c+1)`-th is rejected. -/
theorem consume_capacity_bound (c : ℕ) (hc : 0 < c) (rate : ℚ) (p key : String)
    (now : ℚ) :
    (∀ k, k < c →
      (nthConsume { capacity := (c : ℚ), refillRate := rate, keyPrefixVal := p }
          now key k).allowed = true) ∧
    (nthConsume { capacity := (c : ℚ), refillRate := rate, keyPrefixVal := p }
        now key c).allowed = false := by
  constructor
  · intro k hk
    have hread := iterConsume_read
      { capacity := (c : ℚ), refillRate := rate, keyPrefixVal := p } c rfl key now k
      (le_of_lt hk)
    have h1 : (1 : ℚ) ≤ (c : ℚ) - (k : ℚ) := by
      have hcast : ((k : ℚ) + 1) ≤ (c : ℚ) := by exact_mod_cast hk
      linarith
    simp only [nthConsume, consume]
    rw [hread]
    simp only [consumeBucket, refillTokens, sub_self, zero_div, zero_mul, Int.floor_zero,
      lt_self_iff_false, if_false]
    rw [if_pos h1]
  · have hread := iterConsume_read
      { capacity := (c : ℚ), refillRate := rate, keyPrefixVal := p } c rfl key now c le_rfl
    simp only [nthConsume, consume]
    rw [hread]
    simp only [consumeBucket, refillTokens, sub_self, zero_div, zero_mul, Int.floor_zero,
      lt_self_iff_false, if_false]
    norm_num

/-- Witness for claim C1 at capacity 2: the first call is allowed and the
third is rejected. -/
theorem consume_capacity_bound_witness :
    (nthConsume { capacity := ((2 : ℕ) : ℚ), refillRate := 1, keyPrefixVal := "rate_limit" }
        0 "client" 0).allowed = true ∧
    (nthConsume { capacity := ((2 : ℕ) : ℚ), refillRate := 1, keyPrefixVal := "rate_limit" }
        0 "client" 2).allowed = false := by
  have h := consume_capacity_bound 2 (by norm_num) 1 "rate_limit" "client" 0
  exact ⟨h.1 0 (by norm_num), h.2⟩

end RateLimiterModel

namespace RateLimiterModel

/-- Helper: the refill step keeps `0 ≤ tokens ≤ capacity`. -/
theorem refillTokens_bounds (cfg : TokenBucketConfig) (b : TokenBucketState)
    (now : ℚ) (hcap : 0 ≤ cfg.capacity) (h0 : 0 ≤ b.tokens)
    (h1 : b.tokens ≤ cfg.capacity) :
    0 ≤ (refillTokens cfg b now).tokens ∧
      (refillTokens cfg b now).tokens ≤ cfg.capacity := by
  simp only [refillTokens]
  split_ifs with h
  · constructor
    · have hfl : (0 : ℚ) ≤ ((⌊(now - b.lastRefill) / 1000 * cfg.refillRate⌋ : ℤ) : ℚ) := by
        exact_mod_cast le_of_lt h
      exact le_min hcap (by linarith)
    · exact min_le_left _ _
  · exact ⟨h0, h1⟩

/-- Helper: the per-bucket consume step keeps `0 ≤ tokens ≤ capacity`. -/
theorem consumeBucket_bounds (cfg : TokenBucketConfig) (b : TokenBucketState)
    (now : ℚ) (hcap : 0 ≤ cfg.capacity) (h0 : 0 ≤ b.tokens)
    (h1 : b.tokens ≤ cfg.capacity) :
    0 ≤ (consumeBucket cfg b now).2.tokens ∧
      (consumeBucket cfg b now).2.tokens ≤ cfg.capacity := by
  obtain ⟨g0, g1⟩ := refillTokens_bounds cfg b now hcap h0 h1
  simp only [consumeBucket]
  split_ifs with h
  · exact ⟨by dsimp only; linarith, by dsimp only; linarith⟩
  · exact ⟨g0, g1⟩

/-- Helper: one `consume` call preserves the registry invariant. -/
theorem consume_inv (cfg : TokenBucketConfig) (hcap : 0 ≤ cfg.capacity)
    (st : Storage) (hst : BucketInv cfg st) (now : ℚ) (key : String) :
    BucketInv cfg (consume cfg st now key).2 := by
  intro k b hkb
  simp only [consume, Storage.setKey] at hkb
  by_cases hk : k = bucketKey cfg key
  · rw [if_pos hk] at hkb
    have hb := Option.some.inj hkb
    have hb0 : 0 ≤ ((st (bucketKey cfg key)).getD (freshBucket cfg now)).tokens ∧
        ((st (bucketKey cfg key)).getD (freshBucket cfg now)).tokens ≤ cfg.capacity := by
      cases hlook : st (bucketKey cfg key) with
      | none =>
        simp only [hlook, Option.getD_none, freshBucket]
        exact ⟨hcap, le_rfl⟩
      | some bb =>
        simp only [hlook, Option.getD_some]
        exact hst _ bb hlook
    rw [← hb]
    exact consumeBucket_bounds cfg _ now hcap hb0.1 hb0.2
  · rw [if_neg hk] at hkb
    exact hst k b hkb

/-- Helper: running any operation sequence preserves the registry invariant. -/
theorem runOps_inv (cfg : TokenBucketConfig) (hcap : 0 ≤ cfg.capacity) :
    ∀ (ops : List (ℚ × String)) (st : Storage), BucketInv cfg st →
      BucketInv cfg (runOps cfg st ops) := by
  intro ops
  induction ops with
  | nil =>
    intro st h
    simpa [runOps] using h
  | cons op rest ih =>
    intro st h
    simp only [runOps]
    exact ih _ (consume_inv cfg hcap st h op.1 op.2)

/-- Claim C3: for every sequence of `consume` / time-advance operations on a
bucket registry with positive capacity, `0 ≤ tokens ≤ capacity` holds for
every stored bucket after every operation; and each consume step either
succeeds and decrements the (post-refill) token count by exactly 1, or fails
and leaves it unchanged. -/
theorem consume_tokens_invariant (cfg : TokenBucketConfig) (hc : 0 < cfg.capacity) :
    (∀ ops : List (ℚ × String), BucketInv cfg (runOps cfg Storage.empty ops)) ∧
    (∀ (b : TokenBucketState) (now : ℚ),
      ((consumeBucket cfg b now).1.allowed = true →
        (consumeBucket cfg b now).2.tokens = (refillTokens cfg b now).tokens - 1) ∧
      ((consumeBucket cfg b now).1.allowed = false →
        (consumeBucket cfg b now).2.tokens = (refillTokens cfg b now).tokens)) := by
  constructor
  · intro ops
    apply runOps_inv cfg (le_of_lt hc)
    intro k b h
    simp [Storage.empty] at h
  · intro b now
    simp only [consumeBucket]
    split_ifs with h
    · exact ⟨fun _ => rfl, fun hfalse => by simp at hfalse⟩
    · exact ⟨fun htrue => by simp at htrue, fun _ => rfl⟩

/-- Witness for claim C3 on a concrete operation sequence. -/
theorem consume_tokens_invariant_witness :
    BucketInv cfg10 (runOps cfg10 Storage.empty [(0, "a"), (500, "a"), (2000, "b")]) :=
  (consume_tokens_invariant cfg10 (by norm_num [cfg10])).1 [(0, "a"), (500, "a"), (2000, "b")]

end RateLimiterModel

namespace RateLimiterModel

/-- Helper: when the registry holds a bucket for the key, `consume` runs the
per-bucket step on it and writes the result back. -/
theorem consume_eq_of_lookup (cfg : TokenBucketConfig) (st : Storage) (now : ℚ)
    (key : String) (b : TokenBucketState)
    (h : st (bucketKey cfg key) = some b) :
    consume cfg st now key
      = ((consumeBucket cfg b now).1,
         st.setKey (bucketKey cfg key) (consumeBucket cfg b now).2) := by
  simp only [consume, h, Option.getD_some]

/-- Claim C2: the refill step adds exactly `floor(elapsed_seconds *
refillRate)` tokens, capped at capacity; and concretely, with
`capacity = 10`, `refillRate = 1` token/second, after exhausting the bucket
and letting exactly 2 seconds elapse, two immediately successive `consume`
calls succeed and a third immediate call fails. -/
theorem refill_floor_and_two_seconds :
    (∀ (cfg : TokenBucketConfig) (b : TokenBucketState) (now : ℚ),
        b.tokens ≤ cfg.capacity → b.lastRefill ≤ now → 0 ≤ cfg.refillRate →
        (refillTokens cfg b now).tokens
          = min cfg.capacity
              (b.tokens + ((⌊(now - b.lastRefill) / 1000 * cfg.refillRate⌋ : ℤ) : ℚ))) ∧
    ((consume cfg10 exhausted10 2000 "client").1.allowed = true ∧
      (consume cfg10 (consume cfg10 exhausted10 2000 "client").2 2000 "client").1.allowed
        = true ∧
      (consume cfg10
          (consume cfg10 (consume cfg10 exhausted10 2000 "client").2 2000 "client").2
          2000 "client").1.allowed = false) := by
  constructor
  · intro cfg b now h1 h2 h3
    simp only [refillTokens]
    split_ifs with h
    · rfl
    · push_neg at h
      have hnn : 0 ≤ ⌊(now - b.lastRefill) / 1000 * cfg.refillRate⌋ := by
        apply Int.floor_nonneg.mpr
        have hq : (0 : ℚ) ≤ (now - b.lastRefill) / 1000 := by
          apply div_nonneg (by linarith) (by norm_num)
        exact mul_nonneg hq h3
      have h0 : ⌊(now - b.lastRefill) / 1000 * cfg.refillRate⌋ = 0 := le_antisymm h hnn
      rw [h0]
      simp [min_eq_right h1]
  · have hex : exhausted10 (bucketKey cfg10 "client") = some { tokens := 0, lastRefill := 0 } := by
      have h := iterConsume_lookup cfg10 10 (by norm_num [cfg10]) "client" 0 10 le_rfl
      simpa using h
    have hcb1 : consumeBucket cfg10 { tokens := 0, lastRefill := 0 } 2000
        = ({ allowed := true, remainingTokens := 1, retryAfterSeconds := none,
             resetTime := 2000 + (10 - 1) / 1 * 1000 },
           { tokens := 1, lastRefill := 2000 }) := by
      norm_num [consumeBucket, refillTokens, cfg10, min_def]
    have hcb2 : consumeBucket cfg10 { tokens := 1, lastRefill := 2000 } 2000
        = ({ allowed := true, remainingTokens := 0, retryAfterSeconds := none,
             resetTime := 2000 + (10 - 0) / 1 * 1000 },
           { tokens := 0, lastRefill := 2000 }) := by
      norm_num [consumeBucket, refillTokens, cfg10, min_def]
    have hcb3 : (consumeBucket cfg10 { tokens := 0, lastRefill := 2000 } 2000).1.allowed
        = false := by
      norm_num [consumeBucket, refillTokens, cfg10, min_def]
    have hc1 := consume_eq_of_lookup cfg10 exhausted10 2000 "client" _ hex
    rw [hcb1] at hc1
    have hlook1 : (consume cfg10 exhausted10 2000 "client").2 (bucketKey cfg10 "client")
        = some { tokens := 1, lastRefill := 2000 } := by
      rw [hc1]
      simp [Storage.setKey]
    have hc2 := consume_eq_of_lookup cfg10 (consume cfg10 exhausted10 2000 "client").2
      2000 "client" _ hlook1
    rw [hcb2] at hc2
    have hlook2 : (consume cfg10 (consume cfg10 exhausted10 2000 "client").2 2000 "client").2
        (bucketKey cfg10 "client") = some { tokens := 0, lastRefill := 2000 } := by
      rw [hc2]
      simp [Storage.setKey]
    have hc3 := consume_eq_of_lookup cfg10
      (consume cfg10 (consume cfg10 exhausted10 2000 "client").2 2000 "client").2
      2000 "client" _ hlook2
    refine ⟨?_, ?_, ?_⟩
    · rw [hc1]
    · rw [hc2]
    · rw [hc3]
      exact hcb3

/-- Witness for the refill formula of claim C2: a bucket with 3 tokens last
refilled at time 0, read 1.5 seconds later at rate 1 token/second, refills by
`floor(1.5) = 1` token. -/
theorem refill_floor_and_two_seconds_witness :
    (refillTokens cfg10 { tokens := 3, lastRefill := 0 } 1500).tokens
      = min cfg10.capacity
          ((3 : ℚ) + ((⌊((1500 : ℚ) - 0) / 1000 * cfg10.refillRate⌋ : ℤ) : ℚ)) :=
  refill_floor_and_two_seconds.1 cfg10 { tokens := 3, lastRefill := 0 } 1500
    (by norm_num [cfg10]) (by norm_num) (by norm_num [cfg10])

end RateLimiterModel

namespace ScalabilityModel

/-- Helper: a tiered deduction with nonnegative tier amounts is nonnegative. -/
theorem tierDeduction_nonneg (x lo hi dLo dHi : ℚ) (hlo : 0 ≤ dLo) (hhi : 0 ≤ dHi) :
    0 ≤ tierDeduction x lo hi dLo dHi := by
  unfold tierDeduction
  split_ifs
  · exact hhi
  · exact hlo
  · exact le_rfl

/-- Helper: an `if / else if` deduction ladder subtracts exactly the tiered
deduction. -/
theorem ladder_eq (x lo hi dLo dHi s : ℚ) :
    (if hi < x then s - dHi else if lo < x then s - dLo else s)
      = s - tierDeduction x lo hi dLo dHi := by
  unfold tierDeduction
  split_ifs <;> ring

/-- Claim C5 (counterexample): on metrics whose only unhealthy value is a
6 GB database, the code deducts only the 30-point tier (score 70), while the
claim's non-exclusive rule — both the `>1GB` 15-point and the `>5GB` 30-point
deductions fire — would give 55; the two disagree, so the deduction rules are
not applied non-exclusively. -/
theorem assessment_nonexclusive_counterexample :
    (getScalabilityAssessment metricsDb6GB).score = 70 ∧
    nonExclusiveScore metricsDb6GB = 55 ∧ (70 : ℚ) ≠ 55 := by
  refine ⟨?_, ?_, by norm_num⟩
  · norm_num [getScalabilityAssessment, metricsDb6GB, max_def]
  · norm_num [nonExclusiveScore, metricsDb6GB, max_def, min_def]

/-- Claim C5 (amended): the assessment starts from 100 and, per metric
category, applies the tiered deduction of the `if / else if` ladder — the
higher tier alone when its threshold is exceeded, otherwise the lower tier
(database size >5GB: 30, else >1GB: 15; p95 >500ms: 25, else >200ms: 10;
throughput >500rps: 20, else >100rps: 5; error rate >5%: 25, else >1%: 10;
memory >90%: 20, else >80%: 5); the returned score is clamped below at 0 and
never exceeds 100, and the status is green when the pre-clamp score is ≥ 80,
yellow when ≥ 60, red otherwise. -/
theorem assessment_tiered_score (m : AssessmentInput) :
    (getScalabilityAssessment m).score = max 0 (rawScore m) ∧
    (getScalabilityAssessment m).status
      = (if 80 ≤ rawScore m then HealthStatus.green
         else if 60 ≤ rawScore m then HealthStatus.yellow else HealthStatus.red) ∧
    0 ≤ (getScalabilityAssessment m).score ∧
    (getScalabilityAssessment m).score ≤ 100 := by
  have hkey : (getScalabilityAssessment m).score = max 0 (rawScore m) ∧
      (getScalabilityAssessment m).status
        = (if 80 ≤ rawScore m then HealthStatus.green
           else if 60 ≤ rawScore m then HealthStatus.yellow else HealthStatus.red) := by
    unfold getScalabilityAssessment
    dsimp only
    rw [ladder_eq, ladder_eq, ladder_eq, ladder_eq, ladder_eq]
    unfold rawScore
    exact ⟨rfl, rfl⟩
  have t1 := tierDeduction_nonneg (m.databaseSize / (1024 * 1024 * 1024)) 1 5 15 30
    (by norm_num) (by norm_num)
  have t2 := tierDeduction_nonneg m.p95ResponseTime 200 500 10 25 (by norm_num) (by norm_num)
  have t3 := tierDeduction_nonneg m.requestsPerSecond 100 500 5 20 (by norm_num) (by norm_num)
  have t4 := tierDeduction_nonneg m.errorRate 1 5 10 25 (by norm_num) (by norm_num)
  have t5 := tierDeduction_nonneg m.memoryUsage 80 90 5 20 (by norm_num) (by norm_num)
  have hraw : rawScore m ≤ 100 := by
    unfold rawScore
    linarith
  refine ⟨hkey.1, hkey.2, ?_, ?_⟩
  · rw [hkey.1]
    exact le_max_left _ _
  · rw [hkey.1]
    exact max_le (by norm_num) hraw

end ScalabilityModel
